import Mathlib

/-!
Verification development for the GroupMe-Discord bridge (`src/index.js`).

The core under study is the reply-context resolution engine:
`getGroupMeMessages` (history fetcher), `findReplyContext` (structured
reply resolver), `detectReplyFromText` (heuristic reply detector),
`convertReactionEmoji` / the reaction extractor, and the orchestrator
`handleGroupMeWebhook`.

Modelling conventions for the JavaScript source:
* Optional / possibly-`undefined` fields become `Option`.
* JavaScript string truthiness (`undefined`, `null` and `''` are falsy)
  is modelled by `jsTruthyStr` / `jsOr` / `jsOrNull`.
* `Array.prototype.find` becomes `List.find?`; `String.prototype.includes`
  becomes `containsSubstr` (code-point infix; JS works on UTF-16 units,
  which agrees on the inputs of interest).
* Network calls are resolved by explicit collaborator parameters: the
  result of an awaited fetch is a function argument, and the transport
  outcome of `getGroupMeMessages`'s own request is a `FetchResponse`.
  Fetch requests and outbound deliveries performed by a function are
  returned as an explicit trace so that "no fetch was issued" and "no
  delivery call was made" are statable.
* Object-literal lookup (`emojiMap[k]`) is modelled as own-property
  lookup; prototype-chain artifacts (keys such as `toString`) are outside
  the single-glyph domain the claims quantify over.
-/

namespace GMBridge

/-- An attachment object, a discriminated variant keyed by `type`
(`reply` carries `reply_id` / `base_reply_id`, `image` carries `url`). -/
structure Attachment where
  type : Option String
  url : Option String
  reply_id : Option String
  base_reply_id : Option String
  deriving DecidableEq

/-- One entry of a `favorited_by` reactor sequence. -/
structure Reactor where
  emoji : Option String
  nickname : Option String
  image_url : Option String
  deriving DecidableEq

/-- An inbound GroupMe message / webhook payload, with the fields the
source reads. -/
structure GMessage where
  id : String
  group_id : String
  user_id : String
  name : Option String
  text : Option String
  attachments : Option (List Attachment)
  sender_type : Option String
  favorited_by : Option (List Reactor)
  avatar_url : Option String
  deriving DecidableEq

/-- The `reactionData` object built by `handleGroupMeWebhook` for a
reaction event: the selected reactor entry plus message/group ids. -/
structure ReactionData where
  favorited_by : Reactor
  message_id : String
  group_id : String
  deriving DecidableEq

/-- One history-fetch request issued to `getGroupMeMessages`:
`(group_id, before_id, limit)`. -/
structure FetchCall where
  group_id : String
  before_id : Option String
  limit : Nat
  deriving DecidableEq

/-- JavaScript truthiness of an optional string: `undefined` and `''`
are falsy. -/
def jsTruthyStr : Option String → Bool
  | none => false
  | some s => !(s == "")

/-- JavaScript `x || d` for an optional string `x`. -/
def jsOr (o : Option String) (d : String) : String :=
  match o with
  | none => d
  | some s => if s == "" then d else s

/-- JavaScript `x || null` for an optional string `x`. -/
def jsOrNull (o : Option String) : Option String :=
  match o with
  | none => none
  | some s => if s == "" then none else some s

/-- The predicate of the `messages.find` call in `findReplyContext`:
`msg.id === replyAttachment.reply_id || msg.id === replyAttachment.base_reply_id`. -/
def replyMatches (replyAttachment : Attachment) (msg : GMessage) : Bool :=
  (match replyAttachment.reply_id with
   | some rid => msg.id == rid
   | none => false) ||
  (match replyAttachment.base_reply_id with
   | some bid => msg.id == bid
   | none => false)

/-- Structured reply resolver (`findReplyContext` in `src/index.js`).
The awaited result of `getGroupMeMessages` is supplied by the `history`
collaborator; the second component is the trace of fetch requests issued. -/
def findReplyContext (history : String → Option String → Nat → List GMessage)
    (message : GMessage) : Option GMessage × List FetchCall :=
  match message.attachments with
  | none => (none, [])
  | some atts =>
    if atts.length == 0 then (none, [])
    else
      match atts.find? (fun att => att.type == some "reply") with
      | none => (none, [])
      | some replyAttachment =>
        let messages := history message.group_id (some message.id) 50
        (messages.find? (fun msg => replyMatches replyAttachment msg),
         [⟨message.group_id, some message.id, 50⟩])

/-- The reply attachment `findReplyContext` selects: the first attachment
of `type === 'reply'`, guarded exactly as in the source. -/
def firstReplyAttachment (message : GMessage) : Option Attachment :=
  match message.attachments with
  | none => none
  | some atts =>
    if atts.length == 0 then none
    else atts.find? (fun att => att.type == some "reply")

/-- Word characters of the JavaScript regex class `\w`. -/
def isWordChar (c : Char) : Bool :=
  decide ('a' ≤ c ∧ c ≤ 'z') || decide ('A' ≤ c ∧ c ≤ 'Z') ||
  decide ('0' ≤ c ∧ c ≤ '9') || c == '_'

/-- Whitespace characters of the JavaScript regex class `\s`. -/
def isJsSpace (c : Char) : Bool :=
  c == ' ' || c == '\t' || c == '\n' || c == '\r' ||
  c.toNat == 0x0b || c.toNat == 0x0c || c.toNat == 0xa0 || c.toNat == 0x1680 ||
  decide (0x2000 ≤ c.toNat ∧ c.toNat ≤ 0x200a) ||
  c.toNat == 0x2028 || c.toNat == 0x2029 || c.toNat == 0x202f ||
  c.toNat == 0x205f || c.toNat == 0x3000 || c.toNat == 0xfeff

/-- Line terminators of JavaScript regexes: the characters `.` does not
match and after which the multiline anchors `^` / `$` match. -/
def isLineTerm (c : Char) : Bool :=
  c == '\n' || c == '\r' || c.toNat == 0x2028 || c.toNat == 0x2029

/-- First match of the regex `@(\w+)`: scan left to right for a `@`
followed by at least one word character and capture the maximal run of
word characters after it. -/
def mentionCapture : List Char → Option (List Char)
  | [] => none
  | c :: rest =>
    if c == '@' then
      let run := rest.takeWhile isWordChar
      if run.isEmpty then mentionCapture rest else some run
    else mentionCapture rest

/-- `text.match(/@(\w+)/)`, returning the captured group. -/
def mentionMatch (text : String) : Option String :=
  (mentionCapture text.data).map String.mk

/-- Backtracking step of `\s*(.+)`: when the whole remainder `ws` is
whitespace, the greedy `\s*` backtracks to the last character `.` can
match (the last non-line-terminator), which is then the whole capture. -/
def backtrackQuote (ws : List Char) : Option (List Char) :=
  let stripped := (ws.reverse.dropWhile isLineTerm).reverse
  match stripped.getLast? with
  | some c => some [c]
  | none => none

/-- Attempt of `\s*(.+)` right after a matched `>`: `\s*` is greedy, and
the capture `(.+)` is the maximal run of non-line-terminator characters
from the position the backtracking settles on. -/
def attemptQuote (rest : List Char) : Option (List Char) :=
  let ws := rest.takeWhile isJsSpace
  let tail := rest.drop ws.length
  match tail with
  | _ :: _ => some (tail.takeWhile (fun c => !isLineTerm c))
  | [] => backtrackQuote ws

/-- Scan for the first match of `/^>\s*(.+)/m`: try every line start
holding a `>` in document order. The boolean tracks whether the current
position is a line start. -/
def quoteScan : Bool → List Char → Option (List Char)
  | _, [] => none
  | atStart, c :: rest =>
    if atStart && c == '>' then
      match attemptQuote rest with
      | some cap => some cap
      | none => quoteScan false rest
    else quoteScan (isLineTerm c) rest

/-- `text.match(/^>\s*(.+)/m)`, returning the captured group. -/
def quoteMatch (text : String) : Option String :=
  (quoteScan true text.data).map String.mk

/-- Split a character list at every line terminator (each terminator is
its own separator, matching where the multiline `^` anchors). -/
def splitLines : List Char → List (List Char)
  | [] => [[]]
  | c :: rest =>
    if isLineTerm c then [] :: splitLines rest
    else
      match splitLines rest with
      | l :: ls => (c :: l) :: ls
      | [] => [[c]]

/-- Match of `(.+):\s*$` within a single line: the greedy `(.+)` captures
up to the last colon whose suffix within the line is all whitespace, and
the capture must be non-empty. -/
def colonLine (line : List Char) : Option (List Char) :=
  let t := (line.reverse.dropWhile isJsSpace).reverse
  match t.getLast? with
  | some c =>
    if c == ':' then
      if 2 ≤ t.length then some t.dropLast else none
    else none
  | none => none

/-- First line with a `(.+):\s*$` match, in document order. -/
def colonScanLines : List (List Char) → Option (List Char)
  | [] => none
  | l :: ls =>
    match colonLine l with
    | some cap => some cap
    | none => colonScanLines ls

/-- `text.match(/^(.+):\s*$/m)`, returning the captured group. -/
def colonMatch (text : String) : Option String :=
  (colonScanLines (splitLines text.data)).map String.mk

/-- JavaScript `toLowerCase` (ASCII fragment), written as a map over the
character list so it stays kernel-reducible. -/
def jsToLower (s : String) : String := String.mk (s.data.map Char.toLower)

/-- Containment of `needle` in `hay` (JavaScript `String.prototype.includes`),
as a boolean infix test on the character lists. -/
def listContains [BEq α] : List α → List α → Bool
  | _, [] => true
  | [], _ :: _ => false
  | h :: t, n :: ns => (n :: ns).isPrefixOf (h :: t) || listContains t (n :: ns)

/-- `hay.includes(needle)` on strings. -/
def containsSubstr (hay needle : String) : Bool :=
  listContains hay.data needle.data

/-- The window scan shared by the quote and name-colon branches of
`detectReplyFromText`: first recent message whose (truthy) text,
lower-cased, contains `quotedText`, excluding the message's own id and
author id. -/
def textSearch (message : GMessage) (recentMessages : List GMessage)
    (quotedText : String) : Option GMessage :=
  recentMessages.find? (fun msg =>
    jsTruthyStr msg.text &&
    containsSubstr (jsToLower (msg.text.getD "")) quotedText &&
    msg.id != message.id && msg.user_id != message.user_id)

/-- The `for (const pattern of replyPatterns)` loop of
`detectReplyFromText`: try each pattern in order; on a regex match run
`textSearch` with the lower-cased capture and return its hit, otherwise
continue with the remaining patterns. -/
def patternLoop (message : GMessage) (recentMessages : List GMessage)
    (text : String) : List (String → Option String) → Option GMessage
  | [] => none
  | p :: rest =>
    match p text with
    | some captured =>
      match textSearch message recentMessages (jsToLower captured) with
      | some r => some r
      | none => patternLoop message recentMessages text rest
    | none => patternLoop message recentMessages text rest

/-- Heuristic reply detector (`detectReplyFromText` in `src/index.js`). -/
def detectReplyFromText (message : GMessage) (recentMessages : List GMessage) :
    Option GMessage :=
  if jsTruthyStr message.text then
    let text := message.text.getD ""
    let mentionResult : Option GMessage :=
      match mentionMatch text with
      | some cap =>
        recentMessages.find? (fun msg =>
          jsTruthyStr msg.name &&
          containsSubstr (jsToLower (msg.name.getD "")) (jsToLower cap) &&
          msg.id != message.id && msg.user_id != message.user_id)
      | none => none
    match mentionResult with
    | some r => some r
    | none => patternLoop message recentMessages text [quoteMatch, colonMatch]
  else none

/-- The mention branch of `detectReplyFromText` in isolation (including
the text-truthiness guard). -/
def mentionStep (message : GMessage) (recentMessages : List GMessage) :
    Option GMessage :=
  if jsTruthyStr message.text then
    match mentionMatch (message.text.getD "") with
    | some cap =>
      recentMessages.find? (fun msg =>
        jsTruthyStr msg.name &&
        containsSubstr (jsToLower (msg.name.getD "")) (jsToLower cap) &&
        msg.id != message.id && msg.user_id != message.user_id)
    | none => none
  else none

/-- The quote-line branch of `detectReplyFromText` in isolation. -/
def quoteStep (message : GMessage) (recentMessages : List GMessage) :
    Option GMessage :=
  if jsTruthyStr message.text then
    match quoteMatch (message.text.getD "") with
    | some cap => textSearch message recentMessages (jsToLower cap)
    | none => none
  else none

/-- The name-colon branch of `detectReplyFromText` in isolation. -/
def colonStep (message : GMessage) (recentMessages : List GMessage) :
    Option GMessage :=
  if jsTruthyStr message.text then
    match colonMatch (message.text.getD "") with
    | some cap => textSearch message recentMessages (jsToLower cap)
    | none => none
  else none

/-- First-some choice on options, written out to state "stop at the
first pattern that yields a match". -/
def orElseO : Option α → Option α → Option α
  | some a, _ => some a
  | none, b => b

/-- Emoji normalization table lookup (`convertReactionEmoji` in
`src/index.js`): own-property lookup in the literal `emojiMap`, then the
JavaScript `|| groupmeEmoji` fallback. -/
def convertReactionEmoji (groupmeEmoji : String) : String :=
  let mapped : Option String :=
    if groupmeEmoji == "❤" then some "❤️"
    else if groupmeEmoji == "👍" then some "👍"
    else if groupmeEmoji == "👎" then some "👎"
    else if groupmeEmoji == "😂" then some "😂"
    else if groupmeEmoji == "😢" then some "😢"
    else if groupmeEmoji == "😮" then some "😮"
    else if groupmeEmoji == "😡" then some "😡"
    else if groupmeEmoji == "👏" then some "👏"
    else if groupmeEmoji == "🪩" then some "🪩"
    else none
  jsOr mapped groupmeEmoji

/-- Reaction classification and extraction performed by
`handleGroupMeWebhook` (lines 318-329): a payload with a truthy
non-empty `favorited_by` array yields the `reactionData` object built
from its last entry together with the payload's message and group ids. -/
def extractReaction (data : GMessage) : Option ReactionData :=
  match data.favorited_by with
  | none => none
  | some [] => none
  | some (f :: fs) =>
    some ⟨(f :: fs).getLast (List.cons_ne_nil f fs), data.id, data.group_id⟩

/-- `s.substring(0, n)`: the first `n` characters of `s`. -/
def jsSubstringTo (s : String) (n : Nat) : String :=
  String.mk (s.data.take n)

/-- The emoji of a reaction notification (`sendReactionToDiscord`
line 243): default to the heart glyph, then normalize. -/
def reactionEmoji (rd : ReactionData) : String :=
  convertReactionEmoji (jsOr rd.favorited_by.emoji "❤️")

/-- The reactor display name of a reaction notification
(`sendReactionToDiscord` line 244): default to `Someone`. -/
def reacterName (rd : ReactionData) : String :=
  jsOr rd.favorited_by.nickname "Someone"

/-- The preview of the reacted-upon message embedded in a reaction
notification (`sendReactionToDiscord` lines 247-250): 100-character cap,
truncating to 97 characters plus an ellipsis. -/
def reactionPreview (originalMessage : GMessage) : String :=
  let p := jsOr originalMessage.text "[No text content]"
  if 100 < p.length then jsSubstringTo p 97 ++ "..." else p

/-- The Discord webhook payload for an ordinary message. -/
structure DiscordPayload where
  username : String
  content : String
  avatar_url : Option String
  embeds : Option (List (Option String))
  deriving DecidableEq

/-- The Discord webhook payload for a reaction notification. -/
structure ReactionPayload where
  username : String
  content : String
  avatar_url : Option String
  deriving DecidableEq

/-- The payload `sendToDiscord` builds before its network call
(lines 183-215): content with an optional 150-character reply preview,
username and avatar defaults, and image-attachment embeds. -/
def buildDiscordPayload (message : GMessage) (replyContext : Option GMessage) :
    DiscordPayload :=
  let content0 := jsOr message.text "[No text content]"
  let content :=
    match replyContext with
    | none => content0
    | some rc =>
      let originalText := jsOr rc.text "[No text content]"
      let originalAuthor := jsOr rc.name "Unknown User"
      let originalPreview :=
        if 150 < originalText.length then jsSubstringTo originalText 147 ++ "..."
        else originalText
      "**Replying to " ++ originalAuthor ++ ":** \"" ++ originalPreview ++
        "\"\n\n" ++ content0
  let embeds : Option (List (Option String)) :=
    match message.attachments with
    | none => none
    | some atts =>
      if 0 < atts.length then
        let images := atts.filter (fun att => att.type == some "image")
        if 0 < images.length then some (images.map (fun img => img.url)) else none
      else none
  ⟨jsOr message.name "GroupMe User", content, message.avatar_url, embeds⟩

/-- The payload `sendReactionToDiscord` builds before its network call. -/
def buildReactionPayload (rd : ReactionData) (originalMessage : GMessage) :
    ReactionPayload :=
  ⟨"GroupMe Reactions",
   reactionEmoji rd ++ " **" ++ reacterName rd ++ "** reacted to: \"" ++
     reactionPreview originalMessage ++ "\"",
   jsOrNull rd.favorited_by.image_url⟩

/-- Outcome of the HTTP request `getGroupMeMessages` awaits: either the
promise rejects (transport error), or a response arrives with a status
code and a body whose parse yields a message list (`none` models a body
`JSON.parse` / field access throws on). -/
inductive FetchResponse where
  | transportError
  | response (statusCode : Nat) (parsed : Option (List GMessage))
  deriving DecidableEq

/-- The request path built by `getGroupMeMessages` (lines 61-64),
including the truthiness-guarded `before_id` query parameter. -/
def gmMessagesPath (token : String) (groupId : String) (beforeId : Option String)
    (limit : Nat) : String :=
  let base := "/v3/groups/" ++ groupId ++ "/messages?token=" ++ token ++
    "&limit=" ++ toString limit
  match beforeId with
  | none => base
  | some b => if b == "" then base else base ++ "&before_id=" ++ b

/-- History fetcher (`getGroupMeMessages` in `src/index.js`): the network
collaborator `net` maps the request path to a `FetchResponse`; a 200
response yields its parsed messages, and every failure — transport error,
non-200 status, or unparseable body — yields the empty list. -/
def getGroupMeMessages (token : String) (net : String → FetchResponse)
    (groupId : String) (beforeId : Option String) (limit : Nat) : List GMessage :=
  match net (gmMessagesPath token groupId beforeId limit) with
  | FetchResponse.transportError => []
  | FetchResponse.response statusCode parsed =>
    if statusCode == 200 then
      match parsed with
      | some msgs => msgs
      | none => []
    else []

/-- One outbound delivery call made by the orchestrator. -/
inductive Delivery where
  | message (payload : DiscordPayload)
  | reaction (payload : ReactionPayload)
  deriving DecidableEq

/-- The structured result `handleGroupMeWebhook` returns: the JS objects
`(success: true, ignored: true)`, `(success, type: 'reaction')` and
`(success, type: 'message', hasReply)`. -/
inductive HandleResult where
  | ignoredBot (success : Bool)
  | reaction (success : Bool)
  | message (success : Bool) (hasReply : Bool)
  deriving DecidableEq

/-- An orchestrator run: its returned result plus the traces of history
fetches issued and delivery calls made. -/
structure HandleOutcome where
  result : HandleResult
  fetches : List FetchCall
  deliveries : List Delivery
  deriving DecidableEq

/-- Resolution orchestrator (`handleGroupMeWebhook` in `src/index.js`).
`token` is `GROUPME_ACCESS_TOKEN`, `history` resolves awaited
`getGroupMeMessages` calls, and `deliverOk` is the delivery
collaborator's success flag. -/
def handleGroupMeWebhook (token : Option String)
    (history : String → Option String → Nat → List GMessage)
    (deliverOk : Delivery → Bool) (data : GMessage) : HandleOutcome :=
  if data.sender_type == some "bot" then
    ⟨HandleResult.ignoredBot true, [], []⟩
  else
    match extractReaction data with
    | some reactionData =>
      let d := Delivery.reaction (buildReactionPayload reactionData data)
      ⟨HandleResult.reaction (deliverOk d), [], [d]⟩
    | none =>
      let rcFetches : Option GMessage × List FetchCall :=
        if jsTruthyStr token then
          let r1 := findReplyContext history data
          match r1.1 with
          | some rc => (some rc, r1.2)
          | none =>
            let recent := history data.group_id (some data.id) 20
            (detectReplyFromText data recent,
             r1.2 ++ [⟨data.group_id, some data.id, 20⟩])
        else (none, [])
      let d := Delivery.message (buildDiscordPayload data rcFetches.1)
      ⟨HandleResult.message (deliverOk d) rcFetches.1.isSome, rcFetches.2, [d]⟩

/-! Concrete inputs used to instantiate the theorems below. -/

/-- A prior message with id `7` (the reply target of the scenario). -/
def wOriginal : GMessage :=
  ⟨"7", "g", "u9", some "Orig", some "original", none, some "user", none, none⟩

/-- A structured reply attachment pointing at message `7`. -/
def wReplyAtt : Attachment := ⟨some "reply", none, some "7", none⟩

/-- A message carrying a structured reply attachment. -/
def wMsg : GMessage :=
  ⟨"5", "g", "u2", some "Bob", some "hi", some [wReplyAtt], some "user", none, none⟩

/-- A history collaborator whose every window is `[wOriginal]`. -/
def wHist : String → Option String → Nat → List GMessage := fun _ _ _ => [wOriginal]

/-- A window entry authored by `Alice B`. -/
def wAlice : GMessage :=
  ⟨"3", "g", "u1", some "Alice B", some "hi", none, some "user", none, none⟩

/-- A message mentioning `@Alice`, with no reply attachment. -/
def wMsgA : GMessage :=
  ⟨"5", "g", "u2", some "Bob", some "@Alice lol", some [], some "user", none, none⟩

/-- A reply attachment whose target id equals the carrying message's id. -/
def cexAtt : Attachment := ⟨some "reply", none, some "1", none⟩

/-- A message whose reply attachment points at itself. -/
def cexMsg : GMessage :=
  ⟨"1", "g", "u1", some "A", some "t", some [cexAtt], some "user", none, none⟩

/-- A history collaborator that violates the strict-predecessor contract
by returning the inbound message itself. -/
def cexHistory : String → Option String → Nat → List GMessage := fun _ _ _ => [cexMsg]

/-- A reactor entry carrying a thumbs-up emoji. -/
def wReact1 : Reactor := ⟨some "👍", some "R1", none⟩

/-- A reactor entry with every field omitted. -/
def wReact2 : Reactor := ⟨none, none, none⟩

/-- A payload with a two-entry reactor sequence. -/
def wReactMsg : GMessage :=
  ⟨"9", "g", "u3", some "C", some "hello", none, some "user",
   some [wReact1, wReact2], none⟩

/-- A bot-classified payload. -/
def wBotMsg : GMessage :=
  ⟨"4", "g", "u4", some "Bot", some "x", none, some "bot", none, none⟩

/-- A delivery collaborator that always succeeds. -/
def wDeliverOk : Delivery → Bool := fun _ => true

/-- A network collaborator whose every request fails at transport level. -/
def wNetErr : String → FetchResponse := fun _ => FetchResponse.transportError

/-- A history collaborator whose every window is empty. -/
def wHistEmpty : String → Option String → Nat → List GMessage := fun _ _ _ => []

/-- A 120-character text. -/
def wLongText : String :=
  "aaaaaaaaaaaaaaaaaaaaaaaaaaaaaaaaaaaaaaaaaaaaaaaaaaaaaaaaaaaaaaaaaaaaaaaaaaaaaaaaaaaaaaaaaaaaaaaaaaaaaaaaaaaaaaaaaaaaaa"

/-- A message whose text exceeds the 100-character preview cap. -/
def wLongMsg : GMessage :=
  ⟨"8", "g", "u8", some "L", some wLongText, none, some "user", none, none⟩

/-! Helper lemmas. -/

/-- `findReplyContext` factored through the reply attachment it selects. -/
theorem findReplyContext_eq (history : String → Option String → Nat → List GMessage)
    (m : GMessage) :
    findReplyContext history m =
      match firstReplyAttachment m with
      | none => (none, [])
      | some a =>
        ((history m.group_id (some m.id) 50).find? (fun msg => replyMatches a msg),
         [⟨m.group_id, some m.id, 50⟩]) := by
  unfold findReplyContext firstReplyAttachment
  cases m.attachments with
  | none => rfl
  | some atts =>
    by_cases h : (atts.length == 0) = true
    · simp [h]
    · simp only [Bool.not_eq_true] at h
      simp only [h, Bool.false_eq_true, if_false]

/-- A hit of `textSearch` satisfies the self-exclusion conjuncts of its
predicate. -/
theorem textSearch_excl {m : GMessage} {w : List GMessage} {q : String}
    {r : GMessage} (h : textSearch m w q = some r) :
    r.id ≠ m.id ∧ r.user_id ≠ m.user_id := by
  have hp := List.find?_some h
  simp only [Bool.and_eq_true, bne_iff_ne] at hp
  exact ⟨hp.1.2, hp.2⟩

/-- A hit of the mention branch satisfies the self-exclusion conjuncts. -/
theorem mentionStep_excl {m : GMessage} {w : List GMessage} {r : GMessage}
    (h : mentionStep m w = some r) : r.id ≠ m.id ∧ r.user_id ≠ m.user_id := by
  unfold mentionStep at h
  by_cases hT : jsTruthyStr m.text = true
  · rw [if_pos hT] at h
    cases hM : mentionMatch (m.text.getD "") with
    | some cap =>
      rw [hM] at h
      have hp := List.find?_some h
      simp only [Bool.and_eq_true, bne_iff_ne] at hp
      exact ⟨hp.1.2, hp.2⟩
    | none => rw [hM] at h; cases h
  · rw [if_neg hT] at h; cases h

/-- A hit of the quote branch satisfies the self-exclusion conjuncts. -/
theorem quoteStep_excl {m : GMessage} {w : List GMessage} {r : GMessage}
    (h : quoteStep m w = some r) : r.id ≠ m.id ∧ r.user_id ≠ m.user_id := by
  unfold quoteStep at h
  by_cases hT : jsTruthyStr m.text = true
  · rw [if_pos hT] at h
    cases hQ : quoteMatch (m.text.getD "") with
    | some cap => rw [hQ] at h; exact textSearch_excl h
    | none => rw [hQ] at h; cases h
  · rw [if_neg hT] at h; cases h

/-- A hit of the name-colon branch satisfies the self-exclusion conjuncts. -/
theorem colonStep_excl {m : GMessage} {w : List GMessage} {r : GMessage}
    (h : colonStep m w = some r) : r.id ≠ m.id ∧ r.user_id ≠ m.user_id := by
  unfold colonStep at h
  by_cases hT : jsTruthyStr m.text = true
  · rw [if_pos hT] at h
    cases hC : colonMatch (m.text.getD "") with
    | some cap => rw [hC] at h; exact textSearch_excl h
    | none => rw [hC] at h; cases h
  · rw [if_neg hT] at h; cases h

/-- The heuristic detector is the ordered first-some choice of its three
pattern branches. -/
theorem detect_eq_steps (m : GMessage) (w : List GMessage) :
    detectReplyFromText m w =
      orElseO (mentionStep m w) (orElseO (quoteStep m w) (colonStep m w)) := by
  by_cases hT : jsTruthyStr m.text = true
  · simp only [detectReplyFromText, mentionStep, quoteStep, colonStep, patternLoop,
      if_pos hT]
    cases hM : mentionMatch (m.text.getD "") with
    | some cap =>
      cases hF : w.find? (fun msg =>
          jsTruthyStr msg.name &&
          containsSubstr (jsToLower (msg.name.getD "")) (jsToLower cap) &&
          msg.id != m.id && msg.user_id != m.user_id) with
      | some r => simp [orElseO, hF]
      | none =>
        simp only [hF, orElseO]
        cases hQ : quoteMatch (m.text.getD "") with
        | some cap2 =>
          cases hS : textSearch m w (jsToLower cap2) with
          | some r => simp [orElseO, hS]
          | none =>
            simp only [hS, orElseO]
            cases hC : colonMatch (m.text.getD "") with
            | some cap3 =>
              cases hS2 : textSearch m w (jsToLower cap3) with
              | some r2 => simp [orElseO, hS2]
              | none => simp [orElseO, hS2]
            | none => simp [orElseO]
        | none =>
          simp only [orElseO]
          cases hC : colonMatch (m.text.getD "") with
          | some cap3 =>
            cases hS2 : textSearch m w (jsToLower cap3) with
            | some r2 => simp [orElseO, hS2]
            | none => simp [orElseO, hS2]
          | none => simp [orElseO]
    | none =>
      simp only [orElseO]
      cases hQ : quoteMatch (m.text.getD "") with
      | some cap2 =>
        cases hS : textSearch m w (jsToLower cap2) with
        | some r => simp [orElseO, hS]
        | none =>
          simp only [hS, orElseO]
          cases hC : colonMatch (m.text.getD "") with
          | some cap3 =>
            cases hS2 : textSearch m w (jsToLower cap3) with
            | some r2 => simp [orElseO, hS2]
            | none => simp [orElseO, hS2]
          | none => simp [orElseO]
      | none =>
        simp only [orElseO]
        cases hC : colonMatch (m.text.getD "") with
        | some cap3 =>
          cases hS2 : textSearch m w (jsToLower cap3) with
          | some r2 => simp [orElseO, hS2]
          | none => simp [orElseO, hS2]
        | none => simp [orElseO]
  · simp only [detectReplyFromText, mentionStep, quoteStep, colonStep,
      if_neg hT, orElseO]

/-! Claim theorems. -/

/-- Claim C1: structured reply resolution contract. If the message has no
attachments or no reply-variant attachment, `findReplyContext` returns
absent and issues no history fetch; otherwise it issues exactly one fetch
with `beforeId = message.id` and `limit = 50` and returns the first entry
of the fetched window whose id equals the reply attachment's `reply_id`
or `base_reply_id`, or absent if none exists. -/
theorem structured_reply_contract
    (history : String → Option String → Nat → List GMessage) (m : GMessage) :
    (firstReplyAttachment m = none → findReplyContext history m = (none, [])) ∧
    (∀ a, firstReplyAttachment m = some a →
      findReplyContext history m =
        ((history m.group_id (some m.id) 50).find? (fun msg => replyMatches a msg),
         [⟨m.group_id, some m.id, 50⟩]) ∧
      ∀ r, (findReplyContext history m).1 = some r →
        ∃ l1 l2, history m.group_id (some m.id) 50 = l1 ++ r :: l2 ∧
          replyMatches a r = true ∧ ∀ x ∈ l1, replyMatches a x = false) := by
  constructor
  · intro h
    rw [findReplyContext_eq, h]
  · intro a ha
    have heq : findReplyContext history m =
        ((history m.group_id (some m.id) 50).find? (fun msg => replyMatches a msg),
         [⟨m.group_id, some m.id, 50⟩]) := by
      rw [findReplyContext_eq, ha]
    refine ⟨heq, ?_⟩
    intro r hr
    rw [heq] at hr
    obtain ⟨hp, l1, l2, hl, hall⟩ := List.find?_eq_some.mp hr
    exact ⟨l1, l2, hl, hp, fun x hx => by simpa using hall x hx⟩

/-- Claim C1 witness: a message with a reply attachment targeting id `7`
against a window containing message `7` resolves to that message with a
single 50-limit fetch. -/
theorem structured_reply_contract_witness :
    findReplyContext wHist wMsg = (some wOriginal, [⟨"g", some "5", 50⟩]) := by
  have h := ((structured_reply_contract wHist wMsg).2 wReplyAtt (by decide)).1
  rw [h]
  decide

/-- Claim C2 counterexample: with a history collaborator that returns the
inbound message itself (violating no contract stated by the claim, which
quantifies over every window), the structured resolver resolves a message
whose reply attachment targets its own id to itself. -/
theorem no_self_reply_counterexample :
    (findReplyContext cexHistory cexMsg).1.map GMessage.id = some "1" ∧
    cexMsg.id = "1" := by
  decide

/-- Claim C2 (amended): every entry returned by the heuristic detector has
an id and an author id different from the input message's, unconditionally;
the structured resolver's result has an id different from the message's own
id provided the fetched window contains no entry carrying the message's id
(the strict-predecessor contract of the history fetcher). -/
theorem no_self_reply_amended :
    (∀ m w r, detectReplyFromText m w = some r →
      r.id ≠ m.id ∧ r.user_id ≠ m.user_id) ∧
    (∀ (history : String → Option String → Nat → List GMessage) m r,
      (∀ e ∈ history m.group_id (some m.id) 50, e.id ≠ m.id) →
      (findReplyContext history m).1 = some r → r.id ≠ m.id) := by
  constructor
  · intro m w r h
    rw [detect_eq_steps] at h
    cases hM : mentionStep m w with
    | some r2 =>
      rw [hM] at h
      simp only [orElseO] at h
      cases h
      exact mentionStep_excl hM
    | none =>
      rw [hM] at h
      simp only [orElseO] at h
      cases hQ : quoteStep m w with
      | some r2 =>
        rw [hQ] at h
        simp only [orElseO] at h
        cases h
        exact quoteStep_excl hQ
      | none =>
        rw [hQ] at h
        simp only [orElseO] at h
        exact colonStep_excl h
  · intro history m r hwin h
    rw [findReplyContext_eq] at h
    cases ha : firstReplyAttachment m with
    | none => rw [ha] at h; cases h
    | some a =>
      rw [ha] at h
      have hmem := List.mem_of_find?_eq_some h
      exact hwin r hmem

/-- Claim C2 (amended) witness: the heuristic hit of the `@Alice` scenario
has an id and author id different from the input message's. -/
theorem no_self_reply_amended_witness :
    wAlice.id ≠ wMsgA.id ∧ wAlice.user_id ≠ wMsgA.user_id :=
  no_self_reply_amended.1 wMsgA [wAlice] wAlice (by decide)

/-- Claim C3: reaction extraction. A payload is classified as a reaction
event iff its `favorited_by` sequence is present and non-empty; the
`ReactionEvent` is built from the last entry (index `N-1`) regardless of
the sequence length; the emoji defaults to the heart glyph and the
reactor display name defaults to `Someone` when the selected entry omits
them. -/
theorem reaction_extraction (data : GMessage) :
    ((extractReaction data).isSome = true ↔
      ∃ favs, data.favorited_by = some favs ∧ favs ≠ []) ∧
    (∀ f fs, data.favorited_by = some (f :: fs) →
      extractReaction data =
        some ⟨(f :: fs).getLast (List.cons_ne_nil f fs), data.id, data.group_id⟩ ∧
      (f :: fs).getLast (List.cons_ne_nil f fs) =
        (f :: fs).get ⟨(f :: fs).length - 1, Nat.sub_lt (Nat.succ_pos fs.length) Nat.one_pos⟩) ∧
    (∀ rd : ReactionData, rd.favorited_by.emoji = none → reactionEmoji rd = "❤️") ∧
    (∀ rd : ReactionData, rd.favorited_by.nickname = none → reacterName rd = "Someone") := by
  refine ⟨?_, ?_, ?_, ?_⟩
  · cases h : data.favorited_by with
    | none => simp [extractReaction, h]
    | some favs =>
      cases favs with
      | nil => simp [extractReaction, h]
      | cons f fs => simp [extractReaction, h]
  · intro f fs h
    constructor
    · unfold extractReaction
      rw [h]
    · exact List.getLast_eq_get (f :: fs) (List.cons_ne_nil f fs)
  · intro rd h
    show convertReactionEmoji (jsOr rd.favorited_by.emoji "❤️") = "❤️"
    rw [h]
    decide
  · intro rd h
    show jsOr rd.favorited_by.nickname "Someone" = "Someone"
    rw [h]
    rfl

/-- Claim C3 witness: a two-entry reactor sequence yields the reaction
event built from its second (last) entry. -/
theorem reaction_extraction_witness :
    extractReaction wReactMsg = some ⟨wReact2, "9", "g"⟩ := by
  have h := ((reaction_extraction wReactMsg).2.1 wReact1 [wReact2] rfl).1
  rw [h]
  rfl

/-- Claim C4: bot-sender short-circuit. A payload classified as
bot-originated makes the orchestrator return the handled/ignored result
with no history fetch and no delivery call, regardless of its other
fields. -/
theorem bot_short_circuit (token : Option String)
    (history : String → Option String → Nat → List GMessage)
    (deliverOk : Delivery → Bool) (data : GMessage)
    (h : data.sender_type = some "bot") :
    handleGroupMeWebhook token history deliverOk data =
      ⟨HandleResult.ignoredBot true, [], []⟩ := by
  simp [handleGroupMeWebhook, h]

/-- Claim C4 witness: a concrete bot payload short-circuits. -/
theorem bot_short_circuit_witness :
    handleGroupMeWebhook (some "tok") wHistEmpty wDeliverOk wBotMsg =
      ⟨HandleResult.ignoredBot true, [], []⟩ :=
  bot_short_circuit (some "tok") wHistEmpty wDeliverOk wBotMsg rfl

/-- Claim C5: credential gating. For a non-bot, non-reaction payload with
the access token not configured, the orchestrator issues no history fetch
and makes exactly one delivery carrying no reply context, reporting kind
message with no reply flag. -/
theorem credential_gating (token : Option String)
    (history : String → Option String → Nat → List GMessage)
    (deliverOk : Delivery → Bool) (data : GMessage)
    (hTok : jsTruthyStr token = false)
    (hBot : ¬ data.sender_type = some "bot")
    (hNR : extractReaction data = none) :
    handleGroupMeWebhook token history deliverOk data =
      ⟨HandleResult.message (deliverOk (Delivery.message (buildDiscordPayload data none))) false,
       [], [Delivery.message (buildDiscordPayload data none)]⟩ := by
  have hb : (data.sender_type == some "bot") = false := beq_eq_false_iff_ne.mpr hBot
  simp [handleGroupMeWebhook, hb, hNR, hTok]

/-- Claim C5 witness (Scenario E): with no access token, a message that
does carry a reply attachment is delivered with no context and no fetch. -/
theorem credential_gating_witness :
    handleGroupMeWebhook none wHistEmpty wDeliverOk wMsg =
      ⟨HandleResult.message true false, [],
       [Delivery.message (buildDiscordPayload wMsg none)]⟩ := by
  have h := credential_gating none wHistEmpty wDeliverOk wMsg rfl (by decide) (by decide)
  rw [h]
  rfl

/-- Claim C6: fail-soft history fetch. For every conversation id, cursor
and limit, a transport error and a non-success status code both make
`getGroupMeMessages` return the identical empty sequence. -/
theorem fail_soft_history (token : String) (net : String → FetchResponse)
    (groupId : String) (beforeId : Option String) (limit : Nat) :
    (net (gmMessagesPath token groupId beforeId limit) = FetchResponse.transportError →
      getGroupMeMessages token net groupId beforeId limit = []) ∧
    (∀ statusCode parsed,
      net (gmMessagesPath token groupId beforeId limit) =
        FetchResponse.response statusCode parsed →
      statusCode ≠ 200 → getGroupMeMessages token net groupId beforeId limit = []) := by
  constructor
  · intro h
    unfold getGroupMeMessages
    rw [h]
  · intro s p h hs
    unfold getGroupMeMessages
    rw [h]
    simp [hs]

/-- Claim C6 witness: a transport error yields the empty window. -/
theorem fail_soft_history_witness :
    getGroupMeMessages "t" wNetErr "g" (some "5") 20 = [] :=
  (fail_soft_history "t" wNetErr "g" (some "5") 20).1 rfl

/-- Claim C7: heuristic pattern order. The detector is the ordered
first-some choice of the mention, quote-line and name-colon branches;
when the mention regex captures a token, the mention branch is exactly
the first-entry window scan over the lower-cased substring test with
self-exclusion; when no branch yields a match the result is absent. -/
theorem heuristic_pattern_order (m : GMessage) (w : List GMessage) :
    detectReplyFromText m w =
      orElseO (mentionStep m w) (orElseO (quoteStep m w) (colonStep m w)) ∧
    (∀ tok, jsTruthyStr m.text = true →
      mentionMatch (m.text.getD "") = some tok →
      mentionStep m w = w.find? (fun msg =>
        jsTruthyStr msg.name &&
        containsSubstr (jsToLower (msg.name.getD "")) (jsToLower tok) &&
        msg.id != m.id && msg.user_id != m.user_id) ∧
      ∀ r, mentionStep m w = some r →
        ∃ w1 w2, w = w1 ++ r :: w2 ∧
          (jsTruthyStr r.name &&
           containsSubstr (jsToLower (r.name.getD "")) (jsToLower tok) &&
           r.id != m.id && r.user_id != m.user_id) = true ∧
          ∀ x ∈ w1,
            (jsTruthyStr x.name &&
             containsSubstr (jsToLower (x.name.getD "")) (jsToLower tok) &&
             x.id != m.id && x.user_id != m.user_id) = false) ∧
    (mentionStep m w = none → quoteStep m w = none → colonStep m w = none →
      detectReplyFromText m w = none) := by
  refine ⟨detect_eq_steps m w, ?_, ?_⟩
  · intro tok hT hM
    have heq : mentionStep m w = w.find? (fun msg =>
        jsTruthyStr msg.name &&
        containsSubstr (jsToLower (msg.name.getD "")) (jsToLower tok) &&
        msg.id != m.id && msg.user_id != m.user_id) := by
      unfold mentionStep
      rw [if_pos hT, hM]
    refine ⟨heq, ?_⟩
    intro r hr
    rw [heq] at hr
    obtain ⟨hp, w1, w2, hl, hall⟩ := List.find?_eq_some.mp hr
    refine ⟨w1, w2, hl, hp, fun x hx => ?_⟩
    have h2 := hall x hx
    rwa [Bool.not_eq_true'] at h2
  · intro h1 h2 h3
    rw [detect_eq_steps, h1, h2, h3]
    rfl

/-- Claim C7 witness (Scenario A): the `@Alice` mention resolves to the
window entry named `Alice B`. -/
theorem heuristic_pattern_order_witness :
    mentionStep wMsgA [wAlice] = some wAlice := by
  have h := ((heuristic_pattern_order wMsgA [wAlice]).2.1 "Alice" (by decide) (by decide)).1
  rw [h]
  decide

/-- Claim C8: reaction preview truncation. A truthy original text of at
most 100 characters passes through the preview unchanged; a longer text
is replaced by its first 97 characters plus an ellipsis, yielding exactly
100 characters; and a payload whose sole reactor carries the thumbs-up
emoji extracts that emoji. -/
theorem reaction_preview_truncation :
    (∀ (m : GMessage) (t : String), m.text = some t → t ≠ "" →
      (t.length ≤ 100 → reactionPreview m = t) ∧
      (100 < t.length →
        reactionPreview m = jsSubstringTo t 97 ++ "..." ∧
        (reactionPreview m).length = 100)) ∧
    (∀ (data : GMessage) (r : Reactor), data.favorited_by = some [r] →
      r.emoji = some "👍" →
      extractReaction data = some ⟨r, data.id, data.group_id⟩ ∧
      reactionEmoji ⟨r, data.id, data.group_id⟩ = "👍") := by
  constructor
  · intro m t hm ht
    have hbe : (t == "") = false := beq_eq_false_iff_ne.mpr ht
    have hjs : jsOr m.text "[No text content]" = t := by
      rw [hm]
      simp [jsOr, hbe]
    have hpre : reactionPreview m =
        if 100 < t.length then jsSubstringTo t 97 ++ "..." else t := by
      unfold reactionPreview
      rw [hjs]
    constructor
    · intro hle
      rw [hpre, if_neg (by omega)]
    · intro hgt
      rw [hpre, if_pos hgt]
      refine ⟨rfl, ?_⟩
      have h97 : (jsSubstringTo t 97).length = 97 := by
        show (t.data.take 97).length = 97
        rw [List.length_take]
        have hd : 100 < t.data.length := hgt
        omega
      rw [String.length_append, h97]
      rfl
  · intro data r hf he
    constructor
    · unfold extractReaction
      rw [hf]
      rfl
    · show convertReactionEmoji (jsOr r.emoji "❤️") = "👍"
      rw [he]
      decide

/-- Claim C8 witness: the preview of a 120-character text has exactly 100
characters. -/
theorem reaction_preview_truncation_witness :
    (reactionPreview wLongMsg).length = 100 :=
  (((reaction_preview_truncation).1 wLongMsg wLongText rfl (by decide)).2 (by decide)).2

/-- Claim C9: emoji normalization is the identity except on the bare
heart, which maps to the variation-selector heart; consequently it is
idempotent. -/
theorem emoji_normalization :
    (∀ e : String, e ≠ "❤" → convertReactionEmoji e = e) ∧
    convertReactionEmoji "❤" = "❤️" ∧
    (∀ e : String, convertReactionEmoji (convertReactionEmoji e) = convertReactionEmoji e) := by
  have h1 : ∀ e : String, e ≠ "❤" → convertReactionEmoji e = e := by
    intro e he
    unfold convertReactionEmoji
    split_ifs with g1 g2 g3 g4 g5 g6 g7 g8 g9
    · exact absurd (by simpa using g1) he
    · have h : e = "👍" := by simpa using g2
      subst h; decide
    · have h : e = "👎" := by simpa using g3
      subst h; decide
    · have h : e = "😂" := by simpa using g4
      subst h; decide
    · have h : e = "😢" := by simpa using g5
      subst h; decide
    · have h : e = "😮" := by simpa using g6
      subst h; decide
    · have h : e = "😡" := by simpa using g7
      subst h; decide
    · have h : e = "👏" := by simpa using g8
      subst h; decide
    · have h : e = "🪩" := by simpa using g9
      subst h; decide
    · rfl
  refine ⟨h1, by decide, ?_⟩
  intro e
  by_cases he : e = "❤"
  · subst he
    decide
  · rw [h1 e he]
    exact h1 e he

/-- Claim C9 witness: the thumbs-up glyph passes through unchanged. -/
theorem emoji_normalization_witness :
    convertReactionEmoji "👍" = "👍" :=
  emoji_normalization.1 "👍" (by decide)

/-- Claim C10: the heuristic fallback window. When the orchestrator falls
back to heuristic detection it appends exactly one fetch with
`beforeId = data.id` and `limit = 20`, the delivery's reply context is
the detector run on that very window, and any per-entry property the
history collaborator guarantees for before-cursor windows (in particular
id-difference, the strict-predecessor contract) holds of every entry the
detector scans. -/
theorem heuristic_window (token : Option String)
    (history : String → Option String → Nat → List GMessage)
    (deliverOk : Delivery → Bool) (data : GMessage)
    (hTok : jsTruthyStr token = true)
    (hBot : ¬ data.sender_type = some "bot")
    (hNR : extractReaction data = none)
    (hStruct : (findReplyContext history data).1 = none) :
    (handleGroupMeWebhook token history deliverOk data).fetches =
      (findReplyContext history data).2 ++ [⟨data.group_id, some data.id, 20⟩] ∧
    (handleGroupMeWebhook token history deliverOk data).deliveries =
      [Delivery.message (buildDiscordPayload data
        (detectReplyFromText data (history data.group_id (some data.id) 20)))] ∧
    (∀ strictPred : GMessage → String → Prop,
      (∀ gid b n e, e ∈ history gid (some b) n → strictPred e b) →
      ∀ e ∈ history data.group_id (some data.id) 20, strictPred e data.id) ∧
    ((∀ gid b n e, e ∈ history gid (some b) n → e.id ≠ b) →
      ∀ e ∈ history data.group_id (some data.id) 20, e.id ≠ data.id) := by
  have hb : (data.sender_type == some "bot") = false := beq_eq_false_iff_ne.mpr hBot
  have houtcome : handleGroupMeWebhook token history deliverOk data =
      ⟨HandleResult.message
         (deliverOk (Delivery.message (buildDiscordPayload data
           (detectReplyFromText data (history data.group_id (some data.id) 20)))))
         (detectReplyFromText data (history data.group_id (some data.id) 20)).isSome,
       (findReplyContext history data).2 ++ [⟨data.group_id, some data.id, 20⟩],
       [Delivery.message (buildDiscordPayload data
         (detectReplyFromText data (history data.group_id (some data.id) 20)))]⟩ := by
    simp [handleGroupMeWebhook, hb, hNR, hTok, hStruct]
  refine ⟨by rw [houtcome], by rw [houtcome], ?_, ?_⟩
  · intro sp hsp e he
    exact hsp _ _ _ _ he
  · intro hc e he
    exact hc _ _ _ _ he

/-- Claim C10 witness: a concrete heuristic fallback issues the 20-limit
fetch cursored at the message's own id. -/
theorem heuristic_window_witness :
    (handleGroupMeWebhook (some "tok") wHistEmpty wDeliverOk wMsgA).fetches =
      [⟨"g", some "5", 20⟩] := by
  have h := (heuristic_window (some "tok") wHistEmpty wDeliverOk wMsgA
    (by decide) (by decide) (by decide) (by decide)).1
  rw [h]
  decide

end GMBridge
